import Mathlib

/-!
Verification of the backup retention and rotation program
(go-mysql-auto-backup). The definitions below are a shallow embedding of
`src/main.go` (and, where noted, of the earlier variant of the same file
kept in the repository): pure command construction is embedded as Lean
functions, the filesystem is modelled as the list of existing paths, and
the main loop's mutable state (`count`, `backupStamps`) as explicit state
passing. External processes (mysqldump, rsync, zip) are represented by
their exit status, supplied as a boolean parameter (`true` = exit code 0).
-/

namespace AutoBackup

/-- Model of Go `filepath.Join(a, b)` as used in src/main.go: the two
components joined by the path separator. (Go's `Join` additionally runs
`Clean`, which is the identity on the already-clean paths this program
builds, so it is not modelled.) -/
def filepathJoin (a b : String) : String := a ++ "/" ++ b

/-- Model of `directoryExists` (src/main.go lines 30-35): an `os.Stat`
existence check against the filesystem, modelled as membership of the path
in the list of existing paths. -/
def directoryExists (fs : List String) (d : String) : Bool :=
  fs.contains d

/-- Whether the first character list is an initial segment of the
second. -/
def charsBegin : List Char → List Char → Bool
  | [], _ => true
  | _ :: _, [] => false
  | a :: as, b :: bs => a == b && charsBegin as bs

/-- Whether the string `s` starts with the string `q`. -/
def strBegins (q s : String) : Bool :=
  charsBegin q.data s.data

/-- A path `p` is inside the tree rooted at `d` (equal to `d` or strictly
below it). Used to model the recursive `os.RemoveAll`. -/
def isPathUnder (d p : String) : Bool :=
  p == d || strBegins (d ++ "/") p

/-- Model of `os.RemoveAll(d)` on a filesystem: every path in the tree
rooted at `d` ceases to exist. -/
def removeAllPaths (fs : List String) (d : String) : List String :=
  fs.filter (fun p => !(isPathUnder d p))

/-- Creating a path if it is absent (the effect of `ensureDir`,
src/main.go lines 38-46, and of `os.OpenFile` with `O_CREATE`). -/
def addPath (fs : List String) (p : String) : List String :=
  if fs.contains p then fs else p :: fs

/-- The configuration record (src/main.go lines 15-27), with the nested
`DB` struct flattened. The source spells the rotation field `Threshhold`
(JSON key `archive_after_x`); the spelling is kept. Go `int` fields that
the claims only ever constrain to be at least 2 are modelled as `Nat`. -/
structure Config where
  dbName : String
  dbUser : String
  dbPassword : String
  logPath : String
  dataPath : String
  backupPath : String
  archivePath : String
  dayInterval : Nat
  threshhold : Nat
deriving DecidableEq

/-- Where a spawned command's standard output is sent: the logger (the
effect of `setCmdOut`, src/main.go lines 63-66) or a file opened by the
caller. -/
inductive CmdSink where
  | logWriter : CmdSink
  | fileSink (path : String) : CmdSink
deriving DecidableEq

/-- A spawned external command: program name, argument list, and the
destination of its standard output. -/
structure ExtCmd where
  prog : String
  args : List String
  sink : CmdSink
deriving DecidableEq

/-- The `mysqldump` invocation built by src/main.go lines 77-82:
`exec.Command("mysqldump", "-u", user, fmt.Sprintf("-p%s", pw), ">", dst)`
followed by `setCmdOut(cmd)`. The `">"` and `dst` are passed as literal
arguments (no shell is involved), the `db` parameter is not used, and
standard output goes to the log writer. -/
def mysqldumpCmd (user pw db dst : String) : ExtCmd :=
  { prog := "mysqldump"
    args := ["-u", user, "-p" ++ pw, ">", dst]
    sink := CmdSink.logWriter }

/-- The `mysqldump` invocation built by the earlier variant of main.go
kept in the repository (src/unnamed/part_000 lines 92-103):
`exec.Command("mysqldump", "-u", user, fmt.Sprintf("-p%s", pw), db)` with
`dst` opened via `os.OpenFile(..., O_CREATE, ...)` and set as
`cmd.Stdout`. -/
def mysqldumpCmdPrev (user pw db dst : String) : ExtCmd :=
  { prog := "mysqldump"
    args := ["-u", user, "-p" ++ pw, db]
    sink := CmdSink.fileSink dst }

/-- The filesystem effect of a command's standard-output sink: a file sink
creates the file (O_CREATE); the log writer touches nothing. -/
def applySink (fs : List String) : CmdSink → List String
  | CmdSink.logWriter => fs
  | CmdSink.fileSink p => addPath fs p

/-- Go slice indexing `xs[i]` on an `int` index: panics (here: `none`)
unless `0 <= i < len(xs)`. -/
def goIndex (xs : List String) (i : Int) : Option String :=
  if i < 0 then none else xs.get? i.toNat

/-- Go prefix slicing `xs[:j]` on an `int` bound: panics (here: `none`)
unless `0 <= j <= len(xs)`; otherwise yields the first `j` elements. -/
def goTake (xs : List String) (j : Int) : Option (List String) :=
  if j < 0 ∨ (xs.length : Int) < j then none
  else some (xs.take j.toNat)

/-- The data computed by the rotation branch of src/main.go before any
external command runs. -/
structure RotationData where
  first : String
  last : String
  archivePath : String
  zipInputs : List String
deriving DecidableEq

/-- The pure part of the rotation branch (src/main.go lines 153-163):
`first := backupStamps[0]`, `last := backupStamps[len(backupStamps)-2]`,
the archive name `fmt.Sprintf("archive_%s_%s.zip", first, last)` joined
under the archive root, and the zip input list
`backupStamps[:len(backupStamps)-2]` (which is also the list the removal
loop at lines 171-177 ranges over). `none` models a Go index-out-of-range
panic. -/
def rotateBranch (archiveRoot : String) (stamps : List String) : Option RotationData :=
  (goIndex stamps 0).bind fun first =>
  (goIndex stamps ((stamps.length : Int) - 2)).bind fun last =>
  (goTake stamps ((stamps.length : Int) - 2)).map fun zipInputs =>
    { first := first
      last := last
      archivePath := filepathJoin archiveRoot ("archive_" ++ first ++ "_" ++ last ++ ".zip")
      zipInputs := zipInputs }

/-- The removal loop of src/main.go lines 171-177 on the success path:
for each retired directory, `os.RemoveAll` is invoked only if
`directoryExists` holds for it. -/
def removeRetiredDirs (fs : List String) (retired : List String) : List String :=
  retired.foldl (fun acc d => if directoryExists acc d then removeAllPaths acc d else acc) fs

/-- The removal loop of src/main.go lines 171-177 with a fallible
`os.RemoveAll`, whose failure on a directory `d` is given by the oracle
`removeAllErr d` (failure makes the loop call `log.Fatalf`, modelled as
`none`). Returns the final filesystem together with the list of
directories on which a removal was actually attempted. The existence
guard is exactly the source's `if directoryExists(dir)`. -/
def removeRetiredLoop (removeAllErr : String → Bool) :
    List String → List String → Option (List String × List String)
  | [], fs => some (fs, [])
  | d :: rest, fs =>
    if directoryExists fs d then
      if removeAllErr d then none
      else
        match removeRetiredLoop removeAllErr rest (removeAllPaths fs d) with
        | some p => some (p.1, d :: p.2)
        | none => none
    else removeRetiredLoop removeAllErr rest fs

/-- The mutable loop state of `main` (src/main.go lines 123-124): the
cycle counter and the ordered list of tracked snapshot paths. -/
structure LoopState where
  count : Nat
  backupStamps : List String
deriving DecidableEq

/-- The initial loop state: `count := 0`, `backupStamps := []`
(src/main.go lines 123-124, also reinstalled at lines 178-179). -/
def initLoopState : LoopState :=
  { count := 0, backupStamps := [] }

/-- The tracker component of one successful pass of the loop body
(src/main.go lines 150-180): append the new snapshot path, increment the
counter, and, exactly when the counter reaches the configured threshold,
reset both to empty after the rotation completes. -/
def cycleStep (t : Nat) (s : LoopState) (stamp : String) : LoopState :=
  let stamps := s.backupStamps ++ [stamp]
  let count := s.count + 1
  if count = t then { count := 0, backupStamps := [] }
  else { count := count, backupStamps := stamps }

/-- The tracker state after a sequence of successful cycles, starting
from the initial state. -/
def runCycles (t : Nat) (stamps : List String) : LoopState :=
  stamps.foldl (cycleStep t) initLoopState

/-- The whole observable state of the running program: the filesystem
(list of existing paths), the archives created so far (archive path
paired with the list of directories given to `zip`), and the loop
state. -/
structure WorldState where
  fs : List String
  archives : List (String × List String)
  count : Nat
  backupStamps : List String
deriving DecidableEq

/-- Outcome of one pass of the loop body: either the loop continues with
a new state, or the process terminated (`log.Fatalf` or a panic) leaving
the state as it was at the point of exit. -/
inductive StepOutcome where
  | ok (w : WorldState) : StepOutcome
  | fatal (msg : String) (w : WorldState) : StepOutcome
deriving DecidableEq

/-- The state a step outcome leaves behind (the continuing state, or the
on-disk and in-memory state at the moment of termination). -/
def StepOutcome.world : StepOutcome → WorldState
  | StepOutcome.ok w => w
  | StepOutcome.fatal _ w => w

/-- Whether a step outcome is a continuing (non-fatal) one. -/
def StepOutcome.isOk : StepOutcome → Bool
  | StepOutcome.ok _ => true
  | StepOutcome.fatal _ _ => false

/-- The fatal message of a step outcome, if any. -/
def StepOutcome.fatalMsg : StepOutcome → Option String
  | StepOutcome.ok _ => none
  | StepOutcome.fatal m _ => some m

/-- One pass of the body of the backup loop in `main` (src/main.go lines
125-184), for a given formatted date stamp. The exit status of each
external command is a parameter (`true` = exit 0). Steps, in source
order: `ensureDir` on the dated subdirectory of the backup root; the
`mysqldump` invocation (whose standard-output sink determines its only
filesystem effect — for the src/main.go invocation that sink is the log
writer, so no dump file is created); the `rsync` copy into the `data`
subdirectory; appending to `backupStamps` and incrementing `count`; and,
when `count` equals the threshold, the rotation branch: `zip` over
`backupStamps[:len-2]`, the guarded removal loop over the same list, and
the reset of the tracker. -/
def loopBody (cfg : Config) (dateStamp : String) (mysqldumpOk rsyncOk zipOk : Bool)
    (w : WorldState) : StepOutcome :=
  let backupPath := filepathJoin cfg.backupPath dateStamp
  let fs1 := addPath w.fs backupPath
  let dumpFileName := cfg.dbName ++ "-" ++ dateStamp ++ ".sql"
  let dumpFilePath := filepathJoin backupPath dumpFileName
  let dumpCmd := mysqldumpCmd cfg.dbUser cfg.dbPassword cfg.dbName dumpFilePath
  let fs2 := applySink fs1 dumpCmd.sink
  if !mysqldumpOk then StepOutcome.fatal "failed to create sql dump" { w with fs := fs2 }
  else
    let dataBackupPath := filepathJoin backupPath "data"
    if !rsyncOk then StepOutcome.fatal "failed to run rsync" { w with fs := fs2 }
    else
      let fs3 := addPath fs2 dataBackupPath
      let stamps := w.backupStamps ++ [backupPath]
      let count := w.count + 1
      if count = cfg.threshhold then
        match rotateBranch cfg.archivePath stamps with
        | none =>
          StepOutcome.fatal "panic: index out of range"
            { w with fs := fs3, backupStamps := stamps, count := count }
        | some r =>
          if !zipOk then
            StepOutcome.fatal "error archiving"
              { w with fs := fs3, backupStamps := stamps, count := count }
          else
            let fs4 := addPath fs3 r.archivePath
            let fs5 := removeRetiredDirs fs4 r.zipInputs
            StepOutcome.ok
              { fs := fs5
                archives := w.archives ++ [(r.archivePath, r.zipInputs)]
                count := 0
                backupStamps := [] }
      else
        StepOutcome.ok
          { fs := fs3, archives := w.archives, count := count, backupStamps := stamps }

/-- Iterated loop body over a list of date stamps, with every external
command succeeding (the all-cycles-successful scenario). Stops at the
first fatal outcome. -/
def runLoopBody (cfg : Config) (dates : List String) (w : WorldState) : StepOutcome :=
  match dates with
  | [] => StepOutcome.ok w
  | d :: rest =>
    match loopBody cfg d true true true w with
    | StepOutcome.ok w2 => runLoopBody cfg rest w2
    | StepOutcome.fatal m w2 => StepOutcome.fatal m w2

/-- Model of `checkRequirements` (src/main.go lines 49-60): the three
`exec.LookPath` calls, in source order, against the set of tool names
resolvable on the search path. -/
def checkRequirements (tools : List String) : Bool :=
  tools.contains "mysqldump" && (tools.contains "zip" && tools.contains "rsync")

/-- The environment `main` starts in: which tool names `exec.LookPath`
resolves, and which paths exist on disk. -/
structure StartupEnv where
  tools : List String
  existingDirs : List String
deriving DecidableEq

/-- Observable side effects of the startup sequence of `main`. -/
inductive StartupEffect where
  | openLogFile (p : String) : StartupEffect
  | mkdir (p : String) : StartupEffect
  | enterLoop : StartupEffect
deriving DecidableEq

/-- The startup sequence of `main` (src/main.go lines 100-125), after the
configuration has been read: open (creating if needed) the log file, run
`checkRequirements`, check the data directory exists, `ensureDir` the
backup root and the archive root, then enter the loop. Returns the list
of effects performed, in order, and whether the loop was reached; a
failed step stops the sequence (`log.Fatalf`). -/
def startup (cfg : Config) (env : StartupEnv) : List StartupEffect × Bool :=
  let effects := [StartupEffect.openLogFile cfg.logPath]
  if !(checkRequirements env.tools) then (effects, false)
  else if !(directoryExists env.existingDirs cfg.dataPath) then (effects, false)
  else
    let e2 := effects ++
      (if directoryExists env.existingDirs cfg.backupPath then []
       else [StartupEffect.mkdir cfg.backupPath])
    let e3 := e2 ++
      (if directoryExists env.existingDirs cfg.archivePath then []
       else [StartupEffect.mkdir cfg.archivePath])
    (e3 ++ [StartupEffect.enterLoop], true)

/-- A wall-clock instant as `main` reads it (`time.Now()`), with the
fields relevant to the stamp format. -/
structure GoTime where
  year : Nat
  month : Nat
  day : Nat
  hour : Nat
  minute : Nat
  second : Nat
deriving DecidableEq

/-- Two-digit zero padding, as Go's reference-format components `01` and
`02` render month and day. -/
def pad2 (n : Nat) : String :=
  if n < 10 then "0" ++ toString n else toString n

/-- Four-digit zero padding, as Go's reference-format component `2006`
renders the year. -/
def pad4 (n : Nat) : String :=
  if n < 10 then "000" ++ toString n
  else if n < 100 then "00" ++ toString n
  else if n < 1000 then "0" ++ toString n
  else toString n

/-- Model of `timestamp.Format("2006-01-02")` (src/main.go line 128): the
stamp uses only the calendar date fields. -/
def formatDateOnly (t : GoTime) : String :=
  pad4 t.year ++ "-" ++ pad2 t.month ++ "-" ++ pad2 t.day

/-- The snapshot identifier of a cycle: the formatted date
(src/main.go line 128). -/
def snapshotDirName (t : GoTime) : String := formatDateOnly t

/-- The snapshot directory path of a cycle:
`filepath.Join(cfg.BackupPath, dir)` (src/main.go line 131). -/
def snapshotPath (cfg : Config) (t : GoTime) : String :=
  filepathJoin cfg.backupPath (snapshotDirName t)

/-- A concrete configuration with rotation threshold 3, used to evaluate
the loop at concrete inputs. -/
def cfgT3 : Config :=
  { dbName := "db", dbUser := "u", dbPassword := "p", logPath := "/log"
    dataPath := "/data", backupPath := "/b", archivePath := "/a"
    dayInterval := 1, threshhold := 3 }

/-- A concrete configuration with rotation threshold 2. -/
def cfgT2 : Config :=
  { cfgT3 with threshhold := 2 }

/-- A concrete initial world: the data, backup-root and archive-root
directories exist; no snapshots yet; empty tracker. -/
def w0 : WorldState :=
  { fs := ["/data", "/b", "/a"], archives := [], count := 0, backupStamps := [] }

/-- A concrete startup environment whose search path lacks the export
tool. -/
def envNoDump : StartupEnv :=
  { tools := ["zip", "rsync"], existingDirs := ["/data", "/b", "/a"] }

/-- The invariant the tracker state keeps between cycles: the counter
equals the tracked-list length and stays strictly below the threshold. -/
def trackerInv (t : Nat) (s : LoopState) : Prop :=
  s.count = s.backupStamps.length ∧ s.count < t

/-- Helper: one successful cycle preserves the tracker invariant. -/
theorem cycleStep_preserves_inv (t : Nat) (ht : 1 ≤ t) (s : LoopState) (x : String)
    (h : trackerInv t s) : trackerInv t (cycleStep t s x) := by
  obtain ⟨h1, h2⟩ := h
  simp only [trackerInv, cycleStep]
  by_cases hc : s.count + 1 = t
  · rw [if_pos hc]
    exact ⟨rfl, show 0 < t by omega⟩
  · rw [if_neg hc]
    refine ⟨show s.count + 1 = (s.backupStamps ++ [x]).length by simp [h1], ?_⟩
    show s.count + 1 < t
    omega

/-- Helper: the tracker invariant holds along any fold of successful
cycles. -/
theorem foldl_cycleStep_inv (t : Nat) (ht : 1 ≤ t) :
    ∀ (stamps : List String) (s : LoopState), trackerInv t s →
      trackerInv t (stamps.foldl (cycleStep t) s) := by
  intro stamps
  induction stamps with
  | nil => intro s h; exact h
  | cons x rest ih =>
    intro s h
    exact ih _ (cycleStep_preserves_inv t ht s x h)

/-- Helper: the tracker invariant holds of every reachable state. -/
theorem runCycles_inv (t : Nat) (ht : 1 ≤ t) (stamps : List String) :
    trackerInv t (runCycles t stamps) := by
  refine foldl_cycleStep_inv t ht stamps initLoopState ⟨rfl, ?_⟩
  show 0 < t
  omega

/-- Helper: a path surviving `removeAllPaths` already existed before. -/
theorem removeAllPaths_sub (fs : List String) (d p : String)
    (h : directoryExists (removeAllPaths fs d) p = true) :
    directoryExists fs p = true := by
  unfold directoryExists removeAllPaths at *
  have h2 : p ∈ List.filter (fun q => !(isPathUnder d q)) fs := List.elem_iff.mp h
  exact List.elem_iff.mpr (List.mem_filter.mp h2).1

/-- Helper: the guarded removal loop never fails when `os.RemoveAll`
succeeds on every directory that exists (missing directories are skipped
by the guard before any removal is attempted). -/
theorem removeRetiredLoop_ok (err : String → Bool) :
    ∀ (retired fs : List String),
      (∀ p, directoryExists fs p = true → err p = false) →
      (removeRetiredLoop err retired fs).isSome = true := by
  intro retired
  induction retired with
  | nil => intro fs _; rfl
  | cons d rest ih =>
    intro fs h
    by_cases hd : directoryExists fs d = true
    · have herr : err d = false := h d hd
      have hrec := ih (removeAllPaths fs d)
        (fun p hp => h p (removeAllPaths_sub fs d p hp))
      unfold removeRetiredLoop
      rw [if_pos hd, if_neg (by simp [herr])]
      cases hcase : removeRetiredLoop err rest (removeAllPaths fs d) with
      | some pr => rfl
      | none => rw [hcase] at hrec; exact absurd hrec (by simp)
    · have hd2 : directoryExists fs d = false := by
        cases hval : directoryExists fs d
        · rfl
        · exact absurd hval hd
      unfold removeRetiredLoop
      rw [if_neg (by simp [hd2])]
      exact ih fs h

/-- Helper: a Go index access within bounds succeeds. -/
theorem goIndex_isSome (xs : List String) (i : Int) (h0 : 0 ≤ i)
    (h : i.toNat < xs.length) : (goIndex xs i).isSome = true := by
  unfold goIndex
  rw [if_neg (by omega)]
  rw [List.get?_eq_get h]
  rfl

/-- Helper: a Go prefix slice within bounds succeeds. -/
theorem goTake_isSome (xs : List String) (j : Int) (h0 : 0 ≤ j)
    (h : j ≤ (xs.length : Int)) : (goTake xs j).isSome = true := by
  unfold goTake
  rw [if_neg (by omega)]
  rfl

/-- C1: evaluated at threshold 3 with tracked snapshots s1, s2, s3, the
rotation branch of src/main.go selects `backupStamps[:len-2] = [s1]` —
one snapshot, which is `threshold - 2`, not the first `threshold - 1` —
as the set it zips and deletes, and the removal loop leaves the two most
recent snapshots (s2 and s3) live, not exactly one. This refutes the
claim that every rotation retires exactly `threshold - 1` snapshots and
keeps exactly 1 live; the source's own comments ("last n-1 backups") and
the repository README state the `threshold - 1` intent said by the
claim, so the off-by-one is on the code's side. -/
theorem rotation_retires_all_but_last_two :
    rotateBranch "/arch" ["s1", "s2", "s3"] =
      some { first := "s1", last := "s2",
             archivePath := "/arch/archive_s1_s2.zip", zipInputs := ["s1"] } ∧
    removeRetiredDirs ["s1", "s2", "s3"] ["s1"] = ["s2", "s3"] ∧
    (["s1"] : List String) ≠ ["s1", "s2"] := by
  decide

/-- C2: evaluated over three successful cycles with threshold 3, the
program archives and deletes only S1 (not {S1, S2}): the archive artifact
records the single input directory `/b/2021-01-01`, the directory of S2
(`/b/2021-01-02`) is still present after the rotation, S3 is in place,
and the tracker is empty. The claim's retire set {S1, S2} does not match;
the tracker-empty part does. -/
theorem three_cycle_rotation_evaluation :
    (runLoopBody cfgT3 ["2021-01-01", "2021-01-02", "2021-01-03"] w0).isOk = true ∧
    (runLoopBody cfgT3 ["2021-01-01", "2021-01-02", "2021-01-03"] w0).world.backupStamps = [] ∧
    (runLoopBody cfgT3 ["2021-01-01", "2021-01-02", "2021-01-03"] w0).world.count = 0 ∧
    (runLoopBody cfgT3 ["2021-01-01", "2021-01-02", "2021-01-03"] w0).world.archives =
      [("/a/archive_/b/2021-01-01_/b/2021-01-02.zip", ["/b/2021-01-01"])] ∧
    directoryExists (runLoopBody cfgT3 ["2021-01-01", "2021-01-02", "2021-01-03"] w0).world.fs
      "/b/2021-01-01" = false ∧
    directoryExists (runLoopBody cfgT3 ["2021-01-01", "2021-01-02", "2021-01-03"] w0).world.fs
      "/b/2021-01-02" = true ∧
    directoryExists (runLoopBody cfgT3 ["2021-01-01", "2021-01-02", "2021-01-03"] w0).world.fs
      "/b/2021-01-03" = true ∧
    (runLoopBody cfgT3 ["2021-01-01", "2021-01-02", "2021-01-03"] w0).world.archives.map
      Prod.snd ≠ [["/b/2021-01-01", "/b/2021-01-02"]] := by
  decide

/-- C3: for every sequence of successful cycles under a configured
threshold `t ≥ 2`, the tracker's counter equals the tracked-list length,
the length reached by the next cycle's append never exceeds `t`, and the
next cycle either grows the list by exactly one (when the new length is
below `t`) or — exactly when the new length reaches `t` — resets the
tracker to empty immediately after the rotation completes. -/
theorem tracker_length_invariant (t : Nat) (ht : 2 ≤ t) (pre : List String) (stamp : String) :
    (runCycles t pre).count = (runCycles t pre).backupStamps.length ∧
    (runCycles t pre).backupStamps.length + 1 ≤ t ∧
    cycleStep t (runCycles t pre) stamp =
      (if (runCycles t pre).count + 1 = t then initLoopState
       else { count := (runCycles t pre).count + 1
              backupStamps := (runCycles t pre).backupStamps ++ [stamp] }) := by
  obtain ⟨h1, h2⟩ := runCycles_inv t (by omega) pre
  refine ⟨h1, by omega, ?_⟩
  simp only [cycleStep, initLoopState]

/-- Witness for C3 at threshold 3 after one successful cycle. -/
theorem tracker_length_invariant_witness :
    2 ≤ 3 ∧
    ((runCycles 3 ["a"]).count = (runCycles 3 ["a"]).backupStamps.length ∧
     (runCycles 3 ["a"]).backupStamps.length + 1 ≤ 3 ∧
     cycleStep 3 (runCycles 3 ["a"]) "b" =
       (if (runCycles 3 ["a"]).count + 1 = 3 then initLoopState
        else { count := (runCycles 3 ["a"]).count + 1
               backupStamps := (runCycles 3 ["a"]).backupStamps ++ ["b"] })) :=
  ⟨by decide, tracker_length_invariant 3 (by decide) ["a"] "b"⟩

/-- C4 counterexample: with threshold 2, the first new snapshot does not
trigger any rotation (no archive is created and the snapshot directory
stays), and when the second snapshot does trigger the rotation branch,
the retired list `backupStamps[:len-2]` is empty: the archive artifact
records zero input directories and the previous snapshot's directory is
still present afterwards — not "exactly the one previous snapshot". -/
theorem threshold_two_rotation_cex :
    (runLoopBody cfgT2 ["2021-01-01"] w0).isOk = true ∧
    (runLoopBody cfgT2 ["2021-01-01"] w0).world.archives = [] ∧
    directoryExists (runLoopBody cfgT2 ["2021-01-01"] w0).world.fs "/b/2021-01-01" = true ∧
    (runLoopBody cfgT2 ["2021-01-01", "2021-01-02"] w0).world.archives.map Prod.snd = [[]] ∧
    directoryExists (runLoopBody cfgT2 ["2021-01-01", "2021-01-02"] w0).world.fs
      "/b/2021-01-01" = true := by
  decide

/-- C4 as amended: with threshold 2, a rotation is triggered only by
every second snapshot (the first cycle leaves the tracker at one entry
and rotates nothing; the second resets it), and the rotation that fires
retires no snapshots — the retired prefix `backupStamps[:len-2]` is
empty, so the removal loop deletes nothing and both snapshots remain
live. -/
theorem threshold_two_rotation_amended (ar s1 s2 : String) (fs : List String) :
    cycleStep 2 initLoopState s1 = { count := 1, backupStamps := [s1] } ∧
    cycleStep 2 { count := 1, backupStamps := [s1] } s2 = initLoopState ∧
    (rotateBranch ar [s1, s2]).map RotationData.zipInputs = some [] ∧
    removeRetiredDirs fs [] = fs :=
  ⟨rfl, rfl, rfl, rfl⟩

/-- C5: the mysqldump invocation of src/main.go passes `">"` and the dump
file path as literal arguments, never passes the target database name,
and sends standard output to the log writer — not into the dump file. The
earlier variant of the file (src/unnamed/part_000) does what the claim
says: it passes the database name as the final argument and redirects
standard output into the dump file it creates; the current code is the
slip. -/
theorem mysqldump_invocation_evaluation :
    (mysqldumpCmd "u" "pw" "mydb" "/b/d.sql").args = ["-u", "u", "-ppw", ">", "/b/d.sql"] ∧
    "mydb" ∉ (mysqldumpCmd "u" "pw" "mydb" "/b/d.sql").args ∧
    (mysqldumpCmd "u" "pw" "mydb" "/b/d.sql").sink = CmdSink.logWriter ∧
    (mysqldumpCmd "u" "pw" "mydb" "/b/d.sql").sink ≠ CmdSink.fileSink "/b/d.sql" ∧
    (mysqldumpCmdPrev "u" "pw" "mydb" "/b/d.sql").args = ["-u", "u", "-ppw", "mydb"] ∧
    (mysqldumpCmdPrev "u" "pw" "mydb" "/b/d.sql").sink = CmdSink.fileSink "/b/d.sql" := by
  decide

/-- C6: in a cycle whose export step exits 0 and whose copy step then
fails, the process terminates fatally with the tracker unchanged (the
snapshot is never appended) — that half of the claim holds — but the dump
file for the cycle is NOT present on disk, because the src/main.go
mysqldump invocation sends its output to the log writer and never creates
the file; only the empty snapshot directory exists. -/
theorem rsync_failure_partial_snapshot_evaluation :
    (loopBody cfgT3 "2021-01-01" true false true w0).fatalMsg = some "failed to run rsync" ∧
    (loopBody cfgT3 "2021-01-01" true false true w0).world.backupStamps = w0.backupStamps ∧
    (loopBody cfgT3 "2021-01-01" true false true w0).world.count = w0.count ∧
    directoryExists (loopBody cfgT3 "2021-01-01" true false true w0).world.fs
      "/b/2021-01-01/db-2021-01-01.sql" = false ∧
    directoryExists (loopBody cfgT3 "2021-01-01" true false true w0).world.fs
      "/b/2021-01-01" = true := by
  decide

/-- C7: in the guarded removal loop of the rotation, a retired snapshot
whose directory is already absent is skipped before any removal is
attempted — processing it is a no-op, the loop continues with the rest of
the list unchanged — and the loop as a whole never fails as long as the
removals it does attempt (all on existing directories) succeed, so a
missing directory never causes the rotation to fail. -/
theorem absent_retired_dir_noop (err : String → Bool) (fs retired : List String) (d : String)
    (hok : ∀ p, directoryExists fs p = true → err p = false)
    (hd : directoryExists fs d = false) :
    removeRetiredLoop err (d :: retired) fs = removeRetiredLoop err retired fs ∧
    (removeRetiredLoop err (d :: retired) fs).isSome = true := by
  constructor
  · simp [removeRetiredLoop, hd]
  · exact removeRetiredLoop_ok err (d :: retired) fs hok

/-- Witness for C7: a removal pass over a retired list starting with the
absent directory "b", on a filesystem holding only "a", with a removal
oracle that always succeeds. -/
theorem absent_retired_dir_noop_witness :
    (∀ p, directoryExists ["a"] p = true → (fun _ : String => false) p = false) ∧
    directoryExists ["a"] "b" = false ∧
    (removeRetiredLoop (fun _ => false) ("b" :: ["a"]) ["a"] =
       removeRetiredLoop (fun _ => false) ["a"] ["a"] ∧
     (removeRetiredLoop (fun _ => false) ("b" :: ["a"]) ["a"]).isSome = true) :=
  ⟨fun p _ => rfl, by decide,
   absent_retired_dir_noop (fun _ => false) ["a"] ["a"] "b" (fun p _ => rfl) (by decide)⟩

/-- C8: if the export tool is not resolvable on the search path, the
startup sequence of `main` stops at the requirements check: the loop is
never entered, no directory is ever created (in particular neither the
backup root nor the archive root), and the only filesystem effect that
has happened is the opening of the log file, which precedes the check in
the source. -/
theorem missing_export_tool_stops_startup (cfg : Config) (env : StartupEnv)
    (h : env.tools.contains "mysqldump" = false) :
    (startup cfg env).2 = false ∧
    (startup cfg env).1 = [StartupEffect.openLogFile cfg.logPath] ∧
    (∀ p, StartupEffect.mkdir p ∉ (startup cfg env).1) ∧
    StartupEffect.enterLoop ∉ (startup cfg env).1 := by
  have hc : checkRequirements env.tools = false := by
    unfold checkRequirements
    rw [h]
    rfl
  unfold startup
  rw [hc]
  refine ⟨rfl, rfl, ?_, ?_⟩
  · intro p hp
    simp at hp
  · intro hp
    simp at hp

/-- Witness for C8 with a concrete configuration and an environment
whose path resolves only zip and rsync. -/
theorem missing_export_tool_stops_startup_witness :
    envNoDump.tools.contains "mysqldump" = false ∧
    ((startup cfgT3 envNoDump).2 = false ∧
     (startup cfgT3 envNoDump).1 = [StartupEffect.openLogFile cfgT3.logPath] ∧
     (∀ p, StartupEffect.mkdir p ∉ (startup cfgT3 envNoDump).1) ∧
     StartupEffect.enterLoop ∉ (startup cfgT3 envNoDump).1) :=
  ⟨by decide, missing_export_tool_stops_startup cfgT3 envNoDump (by decide)⟩

/-- C9: the snapshot identifier is computed from the calendar date fields
only, so two cycle timestamps on the same calendar day — regardless of
their time-of-day fields — yield equal snapshot identifiers and the same
snapshot directory path. -/
theorem snapshot_id_depends_on_date_only (cfg : Config) (t1 t2 : GoTime)
    (hy : t1.year = t2.year) (hm : t1.month = t2.month) (hd : t1.day = t2.day) :
    snapshotDirName t1 = snapshotDirName t2 ∧ snapshotPath cfg t1 = snapshotPath cfg t2 := by
  have h : snapshotDirName t1 = snapshotDirName t2 := by
    unfold snapshotDirName formatDateOnly
    rw [hy, hm, hd]
  refine ⟨h, ?_⟩
  unfold snapshotPath
  rw [h]

/-- Witness for C9: two instants of 2021-06-15, morning and just before
midnight, collide. -/
theorem snapshot_id_depends_on_date_only_witness :
    ({ year := 2021, month := 6, day := 15, hour := 8, minute := 0, second := 0 : GoTime }.year =
     { year := 2021, month := 6, day := 15, hour := 23, minute := 59, second := 59 : GoTime }.year) ∧
    ({ year := 2021, month := 6, day := 15, hour := 8, minute := 0, second := 0 : GoTime }.month =
     { year := 2021, month := 6, day := 15, hour := 23, minute := 59, second := 59 : GoTime }.month) ∧
    ({ year := 2021, month := 6, day := 15, hour := 8, minute := 0, second := 0 : GoTime }.day =
     { year := 2021, month := 6, day := 15, hour := 23, minute := 59, second := 59 : GoTime }.day) ∧
    (snapshotDirName { year := 2021, month := 6, day := 15, hour := 8, minute := 0, second := 0 } =
       snapshotDirName { year := 2021, month := 6, day := 15, hour := 23, minute := 59, second := 59 } ∧
     snapshotPath cfgT3 { year := 2021, month := 6, day := 15, hour := 8, minute := 0, second := 0 } =
       snapshotPath cfgT3 { year := 2021, month := 6, day := 15, hour := 23, minute := 59, second := 59 }) :=
  ⟨rfl, rfl, rfl,
   snapshot_id_depends_on_date_only cfgT3
     { year := 2021, month := 6, day := 15, hour := 8, minute := 0, second := 0 }
     { year := 2021, month := 6, day := 15, hour := 23, minute := 59, second := 59 }
     rfl rfl rfl⟩

/-- C10: when the rotation branch fires with the tracked list at length
equal to the configured threshold `t` and `t ≥ 2`, every slice access it
performs — `backupStamps[0]`, `backupStamps[len-2]` and the prefix slice
`backupStamps[:len-2]` (and likewise the `backupStamps[:threshold-1]`
prefix of the repository's earlier variant) — is within bounds: the
panicking out-of-bounds branch is unreachable. -/
theorem rotation_branch_in_bounds (ar : String) (t : Nat) (stamps : List String)
    (ht : 2 ≤ t) (hlen : stamps.length = t) :
    (rotateBranch ar stamps).isSome = true ∧
    (goTake stamps ((t : Int) - 1)).isSome = true := by
  constructor
  · have h1 : (goIndex stamps 0).isSome = true :=
      goIndex_isSome stamps 0 (by omega) (by omega)
    have h2 : (goIndex stamps ((stamps.length : Int) - 2)).isSome = true :=
      goIndex_isSome stamps _ (by omega) (by omega)
    have h3 : (goTake stamps ((stamps.length : Int) - 2)).isSome = true :=
      goTake_isSome stamps _ (by omega) (by omega)
    obtain ⟨a, ha⟩ := Option.isSome_iff_exists.mp h1
    obtain ⟨b, hb⟩ := Option.isSome_iff_exists.mp h2
    obtain ⟨c, hc⟩ := Option.isSome_iff_exists.mp h3
    simp [rotateBranch, ha, hb, hc]
  · exact goTake_isSome stamps _ (by omega) (by omega)

/-- Witness for C10 at threshold 3 with three tracked snapshots. -/
theorem rotation_branch_in_bounds_witness :
    2 ≤ 3 ∧ (["x", "y", "z"] : List String).length = 3 ∧
    ((rotateBranch "/a" ["x", "y", "z"]).isSome = true ∧
     (goTake ["x", "y", "z"] ((3 : Int) - 1)).isSome = true) :=
  ⟨by decide, by decide, rotation_branch_in_bounds "/a" 3 ["x", "y", "z"] (by decide) rfl⟩

end AutoBackup
